import Mathlib

/-!
# Verification of the MANTUL fabric snapshot/diff engine

A shallow embedding of the snapshot comparator (`aci/compare/comparer.py`)
and of the health-check data processors and report classifier
(`aci/healthcheck/checklist_aci.py`), with theorems settling the frozen
claims about them.

Modelling conventions, stated once here:

* JSON values inside a snapshot are modelled to the nesting depth the
  comparator inspects: a record is an object of class-keyed bodies, a body
  is an object of attribute bags, an attribute bag maps attribute names to
  string leaves.  At every level a value may instead be a bare string,
  which lets the model express Python `TypeError`s from subscripting a
  string.  Deeper nesting and non-string leaves do not occur in any claim.
* Python `dict`s are association lists that keep first-insertion position
  and take the last written value (CPython semantics).
* Python exceptions (`KeyError`, `TypeError`, `AttributeError`,
  `ValueError`) are modelled as `Except Unit`; distinctions between the
  exception classes are irrelevant to every claim.
* The iteration order of a Python `set` is unspecified (hash dependent,
  and for strings randomised per process).  Wherever the source iterates
  over a set, the embedding applies a parameter `ord` to a canonical
  duplicate-free enumeration of the set; every permutation-producing `ord`
  is a faithful instantiation.
* `int(...)` applied to a string is modelled by `pyParseInt`: surrounding
  ASCII whitespace, an optional sign, then ASCII digits.  (CPython also
  accepts underscores between digits and non-ASCII digits; no claim
  involves such inputs.)
-/

/-- First-match lookup in an association list, i.e. `d.get(k)` for a
`dict` whose keys are unique. -/
def plookup {α β : Type} [DecidableEq α] (k : α) : List (α × β) → Option β
  | [] => none
  | (k2, v) :: rest => if k2 = k then some v else plookup k rest

/-- Shorthand for `plookup` at string keys, the common case. -/
abbrev alookup {β : Type} (k : String) : List (String × β) → Option β := plookup k

/-- Python `d[k] = v`: keep the first-insertion position of an existing
key, overwrite its value; append a fresh key at the end. -/
def dinsert {α β : Type} [DecidableEq α] (k : α) (v : β) : List (α × β) → List (α × β)
  | [] => [(k, v)]
  | (k2, v2) :: rest => if k2 = k then (k, v) :: rest else (k2, v2) :: dinsert k v rest

/-- The keys of an association list, in insertion order. -/
def akeys {α β : Type} (d : List (α × β)) : List α := d.map Prod.fst

/-- Python `a or b` for a possibly-missing string `a`: the string when it
is present and non-empty (truthy), otherwise `b`. -/
def pyOr (a : Option String) (b : String) : String :=
  match a with
  | some s => if s = "" then b else s
  | none => b

/-- ASCII whitespace, as stripped by `int(...)` (Python also strips
further Unicode whitespace; no claim involves it). -/
def isPyWS (c : Char) : Bool := c.isWhitespace

/-- Strip whitespace from both ends of a character list. -/
def trimChars (l : List Char) : List Char :=
  ((l.dropWhile isPyWS).reverse.dropWhile isPyWS).reverse

/-- Python `s.lower()`, over ASCII (the tokens this code base lowers are
ASCII). -/
def pyLower (s : String) : String := String.mk (s.toList.map Char.toLower)

/-- Python `int(...)` on a string: strip ASCII whitespace, allow one
optional sign, then require at least one ASCII digit.  `none` models a
raised `ValueError`. -/
def pyParseInt (s : String) : Option Int :=
  let t := trimChars s.toList
  let core : List Char → Option Nat := fun ds =>
    if ds = [] ∨ ¬ ds.all Char.isDigit then none
    else some (ds.foldl (fun n c => n * 10 + (c.toNat - 48)) 0)
  match t with
  | '-' :: rest => (core rest).map (fun n => -(n : Int))
  | '+' :: rest => (core rest).map (fun n => (n : Int))
  | l => (core l).map (fun n => (n : Int))

/-- Substring containment of `n` in a character list, i.e. Python
`n in s` for strings. -/
def containsSub (n : List Char) : List Char → Bool
  | [] => n.isEmpty
  | c :: cs => n.isPrefixOf (c :: cs) || containsSub n cs

/-- Boolean lexicographic comparison of character lists, equivalent to
the `List.lt` order underlying `String`'s `<` (proved below); defined
structurally so that concrete sorts evaluate inside the kernel. -/
def listLtb : List Char → List Char → Bool
  | [], [] => false
  | [], _ :: _ => true
  | _ :: _, [] => false
  | c :: cs, d :: ds => if c < d then true else if d < c then false else listLtb cs ds

/-- Boolean `<` on strings (code-point lexicographic, as in Python). -/
def strLtb (a b : String) : Bool := listLtb a.toList b.toList

/-- Insert a string into an ascending duplicate-free list, keeping it
ascending and duplicate free. -/
def sinsert (x : String) : List String → List String
  | [] => [x]
  | y :: ys => if x = y then y :: ys else if strLtb x y then x :: y :: ys else y :: sinsert x ys

/-- Python `sorted(<set of strings>)`: the distinct elements in ascending
code-point order. -/
def sortDedup (xs : List String) : List String := xs.foldr sinsert []

/-- Lift an optional value into `Except`, `none` modelling a raised
exception. -/
def optToExcept {α : Type} : Option α → Except Unit α
  | some a => .ok a
  | none => .error ()

/-! ## Snapshot JSON model (three levels, string leaves) -/

/-- Attribute-bag level value: the object `{"dn": "...", ...}` with
string leaves, or a bare string. -/
inductive JA where
  | s (v : String)
  | obj (fields : List (String × String))
deriving DecidableEq, Repr

/-- Class-body level value: the object `{"attributes": {...}}`, or a
bare string. -/
inductive JB where
  | s (v : String)
  | obj (fields : List (String × JA))
deriving DecidableEq, Repr

/-- Record level value: one element of a category list in a snapshot
document, e.g. `{"faultInst": {"attributes": {...}}}`, or a bare
string. -/
inductive JR where
  | s (v : String)
  | obj (fields : List (String × JB))
deriving DecidableEq, Repr

/-- Python `k in r` on a record: key membership for a dict, substring
containment for a string. -/
def JR.hasKey (r : JR) (k : String) : Bool :=
  match r with
  | .obj fs => (alookup k fs).isSome
  | .s v => containsSub k.toList v.toList

/-- Python `k in b` on a class body. -/
def JB.hasKey (b : JB) (k : String) : Bool :=
  match b with
  | .obj fs => (alookup k fs).isSome
  | .s v => containsSub k.toList v.toList

/-- Python `r[k]` on a record: `KeyError` when the key is missing,
`TypeError` when the receiver is a string. -/
def JR.sub (r : JR) (k : String) : Except Unit JB :=
  match r with
  | .obj fs => optToExcept (alookup k fs)
  | .s _ => .error ()

/-- Python `b[k]` on a class body. -/
def JB.sub (b : JB) (k : String) : Except Unit JA :=
  match b with
  | .obj fs => optToExcept (alookup k fs)
  | .s _ => .error ()

/-- Python `a[k]` on an attribute bag. -/
def JA.sub (a : JA) (k : String) : Except Unit String :=
  match a with
  | .obj fs => optToExcept (alookup k fs)
  | .s _ => .error ()

/-- Python `r.get(k)` on a record: `AttributeError` when the receiver is
a string. -/
def JR.getOpt (r : JR) (k : String) : Except Unit (Option JB) :=
  match r with
  | .obj fs => .ok (alookup k fs)
  | .s _ => .error ()

/-- Python `r.get(k, d)` on a record. -/
def JR.getD (r : JR) (k : String) (d : JB) : Except Unit JB :=
  match r with
  | .obj fs => .ok ((alookup k fs).getD d)
  | .s _ => .error ()

/-- Python `b.get(k, d)` on a class body. -/
def JB.getD (b : JB) (k : String) (d : JA) : Except Unit JA :=
  match b with
  | .obj fs => .ok ((alookup k fs).getD d)
  | .s _ => .error ()

/-- Python `a.get(k)` on an attribute bag. -/
def JA.getOpt (a : JA) (k : String) : Except Unit (Option String) :=
  match a with
  | .obj fs => .ok (alookup k fs)
  | .s _ => .error ()

/-- Python `int(a.get(k, 0))` on an attribute bag: missing key gives the
integer default `0`; a present leaf must parse (`ValueError`
otherwise). -/
def JA.getIntD (a : JA) (k : String) : Except Unit Int :=
  match a with
  | .obj fs =>
    match alookup k fs with
    | none => .ok 0
    | some sv => optToExcept (pyParseInt sv)
  | .s _ => .error ()

/-- Python `int(r.get(k, 0))` on a record whose counter leaf sits one
level down (`summarize_interface_errors` reads flat records): a present
value that is an object raises `TypeError` inside `int`. -/
def JR.getIntD (r : JR) (k : String) : Except Unit Int :=
  match r with
  | .obj fs =>
    match alookup k fs with
    | none => .ok 0
    | some (.s v) => optToExcept (pyParseInt v)
    | some (.obj _) => .error ()
  | .s _ => .error ()

/-! ## The DN extractor of `comparer.py`

`extract_interface_from_dn` applies `re.search(r'node-(\d+).*phys-\[(.*?)\]', dn)`
and returns `(None, None)` when the pattern is absent.  The embedding
implements exactly this pattern: the leftmost position where `node-`
is followed by at least one digit and, somewhere later in the same
newline-free span, `phys-[` is followed by a `]`; the greedy `.*` makes
the match use the last such `phys-[`, the lazy `(.*?)` the first `]`
after it. -/

/-- The characters up to the first `]`; `none` when a newline or the end
of the string intervenes (the lazy `(.*?)` cannot cross a newline). -/
def firstCloseBracket : List Char → Option (List Char)
  | [] => none
  | c :: cs =>
    if c = ']' then some []
    else if c = '\n' then none
    else (firstCloseBracket cs).map (c :: ·)

/-- Greedy `.*phys-\[(.*?)\]`: the last `phys-[` in the leading
newline-free span that is followed by a `]`, returning the bracket
content. -/
def lastPhysMatch : List Char → Option (List Char)
  | [] => none
  | c :: cs =>
    if c = '\n' then none
    else
      match lastPhysMatch cs with
      | some r => some r
      | none =>
        if "phys-[".toList.isPrefixOf (c :: cs) then firstCloseBracket (cs.drop 5)
        else none

/-- Attempt the whole pattern anchored at the head of the list:
`node-` then one or more digits, then `.*phys-\[(.*?)\]`. -/
def nodePhysAt (s : List Char) : Option (List Char × List Char) :=
  if "node-".toList.isPrefixOf s then
    let rest := s.drop 5
    let ds := rest.takeWhile Char.isDigit
    if ds = [] then none
    else (lastPhysMatch (rest.drop ds.length)).map (fun port => (ds, port))
  else none

/-- Python `re.search`: try the pattern at each position, leftmost match
wins. -/
def nodePhysScan : List Char → Option (List Char × List Char)
  | [] => none
  | c :: cs =>
    match nodePhysAt (c :: cs) with
    | some r => some r
    | none => nodePhysScan cs

/-- Function `extract_interface_from_dn` from `aci/compare/comparer.py`: node id
and port from a DN, `(none, none)` when the combined pattern does not
match. -/
def extract_interface_from_dn (dn : String) : Option String × Option String :=
  match nodePhysScan dn.toList with
  | some (ds, port) => (some ("node-" ++ String.mk ds), some (String.mk port))
  | none => (none, none)

/-! ## Category summarizers of `comparer.py` -/

/-- Loop body of `summarize_interfaces`: build the `dn -> operSt` dict,
skipping records whose guarded lookups give a falsy dn or state. -/
def summarizeInterfacesGo : List JR → List (String × String) → Except Unit (List (String × String))
  | [], acc => .ok acc
  | intf :: rest, acc => do
    let body ← intf.getD "l1PhysIf" (.obj [])
    let attrs ← body.getD "attributes" (.obj [])
    let dn ← attrs.getOpt "dn"
    let st ← attrs.getOpt "operSt"
    match dn, st with
    | some d, some stv =>
      if d ≠ "" ∧ stv ≠ "" then summarizeInterfacesGo rest (dinsert d stv acc)
      else summarizeInterfacesGo rest acc
    | _, _ => summarizeInterfacesGo rest acc

/-- Function `summarize_interfaces` from `comparer.py`. -/
def summarize_interfaces (data : List JR) : Except Unit (List (String × String)) :=
  summarizeInterfacesGo data []

/-- Loop body of `summarize_interface_errors`: flat records, value
`int(crc) + int(inputDiscards)`, keyed by truthy dn.  A truthy dict dn
would be an unhashable dict key (`TypeError`). -/
def summarizeIntfErrsGo : List JR → List (String × Int) → Except Unit (List (String × Int))
  | [], acc => .ok acc
  | e :: rest, acc => do
    let dn ← e.getOpt "dn"
    let crc ← e.getIntD "crc"
    let inp ← e.getIntD "inputDiscards"
    match dn with
    | some (.s d) =>
      if d ≠ "" then summarizeIntfErrsGo rest (dinsert d (crc + inp) acc)
      else summarizeIntfErrsGo rest acc
    | some (.obj fs) => if fs ≠ [] then .error () else summarizeIntfErrsGo rest acc
    | none => summarizeIntfErrsGo rest acc

/-- Function `summarize_interface_errors` from `comparer.py`. -/
def summarize_interface_errors (data : List JR) : Except Unit (List (String × Int)) :=
  summarizeIntfErrsGo data []

/-- The set comprehension `{r[ck]["attributes"]["dn"] for r in rs}` used
for the faults (`ck = "faultInst"`) and routes (`ck = "uribv4Route"`)
categories: every subscript is unguarded, so a record lacking a key
raises. -/
def classDns (ck : String) : List JR → Except Unit (List String)
  | [] => .ok []
  | f :: rest => do
    let body ← f.sub ck
    let attrs ← body.sub "attributes"
    let dn ← attrs.sub "dn"
    let ds ← classDns ck rest
    .ok (dn :: ds)

/-- Loop body of the endpoints dict comprehension
`{ep["fvCEp"]["attributes"]["dn"]: ep["fvCEp"]["attributes"].get("ip")}`. -/
def endpointMapGo : List JR → List (String × Option String) → Except Unit (List (String × Option String))
  | [], acc => .ok acc
  | ep :: rest, acc => do
    let body ← ep.sub "fvCEp"
    let attrs ← body.sub "attributes"
    let dn ← attrs.sub "dn"
    let ip ← attrs.getOpt "ip"
    endpointMapGo rest (dinsert dn ip acc)

/-- The endpoints `dn -> ip` dict of `compare_snapshots`. -/
def endpointMap (data : List JR) : Except Unit (List (String × Option String)) :=
  endpointMapGo data []

/-- Loop body of the three guarded counter collectors (`crc_errors` /
`drop_errors` / `output_errors`): membership-guarded class and
`attributes` access, `dn` via `.get`, count via `int(.get(fk, 0))`. -/
def counterMapGo (ck fk : String) : List JR → List (String × Int) → Except Unit (List (String × Int))
  | [], acc => .ok acc
  | e :: rest, acc =>
    if e.hasKey ck then do
      let body ← e.sub ck
      if body.hasKey "attributes" then do
        let attrs ← body.sub "attributes"
        let dn ← attrs.getOpt "dn"
        let cnt ← attrs.getIntD fk
        match dn with
        | some d =>
          if d ≠ "" then counterMapGo ck fk rest (dinsert d cnt acc)
          else counterMapGo ck fk rest acc
        | none => counterMapGo ck fk rest acc
      else counterMapGo ck fk rest acc
    else counterMapGo ck fk rest acc

/-- The `dn -> count` dict built for one side of one guarded
counter category. -/
def counterMap (ck fk : String) (data : List JR) : Except Unit (List (String × Int)) :=
  counterMapGo ck fk data []

/-! ## Diff machinery of `compare_snapshots` -/

/-- Canonical duplicate-free enumeration of `set(keys bm) | set(keys am)`
(the actual iteration order is `ord` of this list). -/
def unionKeys {β γ : Type} (bm : List (String × β)) (am : List (String × γ)) : List String :=
  akeys bm ++ (akeys am).filter (fun k => !(akeys bm).contains k)

/-- Canonical duplicate-free enumeration of
`before.keys() & after.keys()`. -/
def interKeys {β γ : Type} (bm : List (String × β)) (am : List (String × γ)) : List String :=
  (akeys bm).filter (fun k => (akeys am).contains k)

/-- The emit condition of a monotonic-counter diff loop: with `b`/`a`
the counts (0 when the key is absent), `a > b`. -/
abbrev cdCond (bm am : List (String × Int)) (dn : String) : Prop :=
  (alookup dn bm).getD 0 < (alookup dn am).getD 0

/-- The report value `f"{b} ➜ {a}"` of a monotonic-counter diff loop. -/
def cdFmt (bm am : List (String × Int)) (dn : String) : String :=
  toString ((alookup dn bm).getD 0) ++ " ➜ " ++ toString ((alookup dn am).getD 0)

/-- One iteration of a monotonic-counter diff loop: emit `"{b} ➜ {a}"`
under key `κ dn` exactly when `a > b`. -/
def cdStep {K : Type} [DecidableEq K] (κ : String → K) (bm am : List (String × Int))
    (acc : List (K × String)) (dn : String) : List (K × String) :=
  if cdCond bm am dn then dinsert (κ dn) (cdFmt bm am dn) acc else acc

/-- A whole monotonic-counter diff loop over the iteration order
`ord (unionKeys bm am)`; `κ` is the report key (`id` for
`interface_error_changes`, `extract_interface_from_dn` for the crc /
drop / output categories). -/
def counterDiff {K : Type} [DecidableEq K] (κ : String → K) (ord : List String → List String)
    (bm am : List (String × Int)) : List (K × String) :=
  (ord (unionKeys bm am)).foldl (cdStep κ bm am) []

/-- The `status_changed` comprehension: over the iteration order of the
key-set intersection, subscript both dicts (a `KeyError` is possible
only under an enumeration that is not a permutation of the
intersection) and render changed states. -/
def statusChangedGo (bm am : List (String × String)) : List String → Except Unit (List String)
  | [] => .ok []
  | k :: ks => do
    let bv ← optToExcept (alookup k bm)
    let av ← optToExcept (alookup k am)
    let rest ← statusChangedGo bm am ks
    if bv ≠ av then .ok ((k ++ ": " ++ bv ++ " ➜ " ++ av) :: rest)
    else .ok rest

/-! ## Snapshot documents and `compare_snapshots` -/

/-- A parsed snapshot JSON document as `compare_snapshots` reads it:
each category key may be absent (`none`). -/
structure SnapDoc where
  fabric_health : Option Int
  faults : Option (List JR)
  endpoints : Option (List JR)
  interfaces : Option (List JR)
  interface_errors : Option (List JR)
  crc_errors : Option (List JR)
  drop_errors : Option (List JR)
  output_errors : Option (List JR)
  urib_routes : Option (List JR)
deriving DecidableEq, Repr

/-- A snapshot document after the `.get(key, [])` reads of
`compare_snapshots`. -/
structure CoreDoc where
  fabric_health : Option Int
  faults : List JR
  endpoints : List JR
  interfaces : List JR
  interface_errors : List JR
  crc_errors : List JR
  drop_errors : List JR
  output_errors : List JR
  urib_routes : List JR
deriving DecidableEq, Repr

/-- The `.get(category, [])` reads applied to a document: an absent
category key becomes the empty list. -/
def normDoc (d : SnapDoc) : CoreDoc :=
  ⟨d.fabric_health, d.faults.getD [], d.endpoints.getD [], d.interfaces.getD [],
   d.interface_errors.getD [], d.crc_errors.getD [], d.drop_errors.getD [],
   d.output_errors.getD [], d.urib_routes.getD []⟩

/-- The result dict of `compare_snapshots`; `interface_changes` is
flattened into its three members, `urib_route_changes` into two. -/
structure CompareResult where
  fabric_before : Option Int
  fabric_after : Option Int
  new_faults : List String
  cleared_faults : List String
  new_endpoints : List String
  missing_endpoints : List String
  moved_endpoints : List String
  status_changed : List String
  interfaces_missing : List String
  interfaces_new : List String
  interface_error_changes : List (String × String)
  crc_error_changes : List ((Option String × Option String) × String)
  drop_error_changes : List ((Option String × Option String) × String)
  output_error_changes : List ((Option String × Option String) × String)
  urib_missing : List String
  urib_new : List String
deriving DecidableEq, Repr

/-- Body of `compare_snapshots` after the two `json.load` calls, over the
`.get`-normalised documents, in the source's evaluation order. -/
def compareCore (ord : List String → List String) (b a : CoreDoc) : Except Unit CompareResult := do
  let bf ← classDns "faultInst" b.faults
  let af ← classDns "faultInst" a.faults
  let beps ← endpointMap b.endpoints
  let aeps ← endpointMap a.endpoints
  let bi ← summarize_interfaces b.interfaces
  let ai ← summarize_interfaces a.interfaces
  let sc ← statusChangedGo bi ai (ord (interKeys bi ai))
  let bie ← summarize_interface_errors b.interface_errors
  let aie ← summarize_interface_errors a.interface_errors
  let bc ← counterMap "rmonEtherStats" "cRCAlignErrors" b.crc_errors
  let ac ← counterMap "rmonEtherStats" "cRCAlignErrors" a.crc_errors
  let bd ← counterMap "rmonEgrCounters" "dropPkts" b.drop_errors
  let ad ← counterMap "rmonEgrCounters" "dropPkts" a.drop_errors
  let bo ← counterMap "rmonIfOut" "outErrors" b.output_errors
  let ao ← counterMap "rmonIfOut" "outErrors" a.output_errors
  let br ← classDns "uribv4Route" b.urib_routes
  let ar ← classDns "uribv4Route" a.urib_routes
  .ok ⟨b.fabric_health, a.fabric_health,
    sortDedup (af.filter (fun d => !bf.contains d)),
    sortDedup (bf.filter (fun d => !af.contains d)),
    sortDedup ((akeys aeps).filter (fun dn => !(akeys beps).contains dn)),
    sortDedup ((akeys beps).filter (fun dn => !(akeys aeps).contains dn)),
    sortDedup ((akeys beps).filter
      (fun dn => (akeys aeps).contains dn && decide (alookup dn beps ≠ alookup dn aeps))),
    sc,
    sortDedup ((akeys bi).filter (fun k => !(akeys ai).contains k)),
    sortDedup ((akeys ai).filter (fun k => !(akeys bi).contains k)),
    counterDiff (fun dn => dn) ord bie aie,
    counterDiff extract_interface_from_dn ord bc ac,
    counterDiff extract_interface_from_dn ord bd ad,
    counterDiff extract_interface_from_dn ord bo ao,
    sortDedup (br.filter (fun d => !ar.contains d)),
    sortDedup (ar.filter (fun d => !br.contains d))⟩

/-- Function `compare_snapshots` from `aci/compare/comparer.py` (the two
documents stand for the parsed contents of the two files). -/
def compare_snapshots (ord : List String → List String) (d1 d2 : SnapDoc) :
    Except Unit CompareResult :=
  compareCore ord (normDoc d1) (normDoc d2)

/-! ## Health-check data processors (`checklist_aci.py`)

Attribute bags of APIC responses are string-valued objects; a raw
`imdata` entry is modelled by its sole top-level class key (falsy when
the entry is not a dict, is empty, or has an empty first key — all
skipped identically by the source) together with that class body's
`attributes` bag (empty when absent). -/

/-- A string-valued attribute bag. -/
abbrev Attrs : Type := List (String × String)

/-- Python `attrs.get(k)`. -/
def aget (k : String) (a : Attrs) : Option String := alookup k a

/-- One `imdata` entry as the processors read it. -/
structure RawEntry where
  classKey : Option String
  attributes : Attrs
deriving DecidableEq, Repr

/-- Python `if not class_key: continue` — `None` or the empty string. -/
def classKeyFalsy (o : Option String) : Bool :=
  match o with
  | none => true
  | some s => s = ""

/-! ### The per-field DN extractor of `_process_interface_errors` -/

/-- Anchored attempt of `node-(\d+)`. -/
def nodeIdAt (s : List Char) : Option (List Char) :=
  if "node-".toList.isPrefixOf s then
    let ds := (s.drop 5).takeWhile Char.isDigit
    if ds = [] then none else some ds
  else none

/-- Python `re.search(r'node-(\d+)', dn)`: leftmost match, group 1. -/
def nodeIdScan : List Char → Option (List Char)
  | [] => none
  | c :: cs =>
    match nodeIdAt (c :: cs) with
    | some r => some r
    | none => nodeIdScan cs

/-- Anchored attempt of `(phys|aggr)-\[(.*?)\]`. -/
def physAggrAt (s : List Char) : Option (List Char) :=
  if "phys-[".toList.isPrefixOf s ∨ "aggr-[".toList.isPrefixOf s then
    firstCloseBracket (s.drop 6)
  else none

/-- Python `re.search(r'(phys|aggr)-\[(.*?)\]', dn)`: leftmost match, group 2. -/
def physAggrScan : List Char → Option (List Char)
  | [] => none
  | c :: cs =>
    match physAggrAt (c :: cs) with
    | some r => some r
    | none => physAggrScan cs

/-- The interface name extracted in `_process_interface_errors`:
`"Unknown"` when the port marker is absent. -/
def checkInterfaceName (dn : String) : String :=
  match physAggrScan dn.toList with
  | some port => String.mk port
  | none => "Unknown"

/-- The node id extracted in `_process_interface_errors`: `"Unknown"`
when the node marker is absent. -/
def checkNodeId (dn : String) : String :=
  match nodeIdScan dn.toList with
  | some ds => "node-" ++ String.mk ds
  | none => "Unknown"

/-! ### `_process_interface_errors` -/

/-- One over-threshold interface entry emitted by
`_process_interface_errors` (the schema-specific count field is always
named `errors` here). -/
structure ErrEntry where
  node : String
  interface : String
  errors : Int
  dn : String
deriving DecidableEq, Repr

/-- Python `int(attr.get(primary_key, attr.get(secondary_key, 0) or 0))`:
the primary field if present (unparsable raises), else the secondary
field with falsy values collapsing to 0. -/
def errCount (pk sk : String) (a : Attrs) : Except Unit Int :=
  match aget pk a with
  | some sv => optToExcept (pyParseInt sv)
  | none =>
    match aget sk a with
    | some sv => if sv = "" then .ok 0 else optToExcept (pyParseInt sv)
    | none => .ok 0

/-- Method `_process_interface_errors` from `checklist_aci.py`: keep entries
whose count exceeds the threshold, attaching the per-field extracted
node id and interface name with `"Unknown"` sentinels. -/
def processInterfaceErrors (threshold : Int) (pk sk : String) :
    List RawEntry → Except Unit (List ErrEntry)
  | [] => .ok []
  | e :: rest =>
    if classKeyFalsy e.classKey then processInterfaceErrors threshold pk sk rest
    else do
      let errs ← errCount pk sk e.attributes
      let tail ← processInterfaceErrors threshold pk sk rest
      if threshold < errs then
        let dn := (aget "dn" e.attributes).getD ""
        .ok (⟨checkNodeId dn, checkInterfaceName dn, errs, dn⟩ :: tail)
      else .ok tail

/-! ### `process_apic_data` -/

/-- The controller-node record appended by `process_apic_data`.  The
`infraWiNode` branch emits no `ip` field, modelled as `none`. -/
structure NodeOut where
  name : String
  serial : String
  ip : Option String
  mode : String
  status : String
  healthStr : String
  health : Int
deriving DecidableEq, Repr

/-- Health in the `infraWiNode` branch:
`100 if str(get("health","")).lower() in ["fully-fit","100"] else 50 if
... == "degraded" else int(get("health",0) or 0)` — the final `int` is
unguarded, so an unrecognised non-numeric token raises `ValueError`. -/
def wiNodeHealth (h : Option String) : Except Unit Int :=
  let hs := pyLower (h.getD "")
  if hs = "fully-fit" ∨ hs = "100" then .ok 100
  else if hs = "degraded" then .ok 50
  else
    match h with
    | none => .ok 0
    | some sv => if sv = "" then .ok 0 else optToExcept (pyParseInt sv)

/-- One node of the `infraWiNode` branch. -/
def wiNodeOut (a : Attrs) : Except Unit NodeOut := do
  let h ← wiNodeHealth (aget "health" a)
  .ok ⟨pyOr (aget "nodeName" a) (pyOr (aget "name" a) ((aget "id" a).getD "")),
    pyOr (aget "mbSn" a) ((aget "serial" a).getD ""),
    none,
    (aget "apicMode" a).getD "",
    (aget "operSt" a).getD "",
    (aget "health" a).getD "unknown",
    h⟩

/-- The `infraWiNode` branch loop. -/
def wiNodeList : List Attrs → Except Unit (List NodeOut)
  | [] => .ok []
  | a :: rest => do
    let n ← wiNodeOut a
    let ns ← wiNodeList rest
    .ok (n :: ns)

/-- Health in the `imdata` branch:
`try: int(get("health", get("cur", 0)) or 0) except: token map of
health_str` — total, since the token map catches every parse failure
and maps unrecognised tokens to 0. -/
def imdataNodeHealth (a : Attrs) : Int :=
  let hv : Option String :=
    match aget "health" a with
    | some h => some h
    | none => aget "cur" a
  match hv with
  | none => 0
  | some sv =>
    if sv = "" then 0
    else
      match pyParseInt sv with
      | some n => n
      | none =>
        let hs := pyLower (pyOr (aget "health" a) (pyOr (aget "healthRollup" a) ""))
        if hs = "fully-fit" ∨ hs = "fully fit" then 100
        else if hs = "degraded" then 50
        else 0

/-- One node of the `imdata` branch (the `oobNetwork` nested-dict path
cannot occur over string-valued bags, leaving the
`oobMgmtAddr`/`address` fallback). -/
def imdataNodeOut (a : Attrs) : NodeOut :=
  let numeric := imdataNodeHealth a
  let healthStr := pyOr (aget "health" a) (pyOr (aget "healthRollup" a) "")
  ⟨pyOr (aget "nodeName" a) (pyOr (aget "name" a) (pyOr (aget "id" a) "")),
   pyOr (aget "mbSn" a) (pyOr (aget "serial" a) ""),
   some (pyOr (some ((aget "oobMgmtAddr" a).getD "")) ((aget "address" a).getD "")),
   (aget "apicMode" a).getD "",
   (match aget "operSt" a with | some v => v | none => (aget "status" a).getD ""),
   (if healthStr = "" then toString numeric else healthStr),
   numeric⟩

/-- The `imdata` branch loop (entries with a falsy class key are
skipped). -/
def imdataNodeList : List RawEntry → List NodeOut
  | [] => []
  | e :: rest =>
    if classKeyFalsy e.classKey then imdataNodeList rest
    else imdataNodeOut e.attributes :: imdataNodeList rest

/-- The payload shapes `process_apic_data` distinguishes: a top-level
`infraWiNode` list (each node reduced to its attribute bag), else an
`imdata` list, else nothing. -/
structure ApicPayload where
  infraWiNode : Option (List Attrs)
  imdata : Option (List RawEntry)
deriving Repr

/-- Function `process_apic_data` from `checklist_aci.py`. -/
def process_apic_data (d : ApicPayload) : Except Unit (List NodeOut) :=
  match d.infraWiNode with
  | some ns => wiNodeList ns
  | none =>
    match d.imdata with
    | some es => .ok (imdataNodeList es)
    | none => .ok []

/-! ### `process_faults`

The source parses `lastTransition.split('.')[0]` with
`datetime.strptime(..., "%Y-%m-%dT%H:%M:%S")` and compares against
`datetime.now() - timedelta(hours=hours_back)`.  The ambient clock and
the calendar arithmetic of `strptime` are modelled by a timestamp
parser `parseTs` (`none` = `ValueError`) and the already-computed
cutoff instant `timeThreshold`; every claim about this function is
insensitive to the concrete parser. -/

/-- A normalised fault record. -/
structure FaultOut where
  severity : String
  code : String
  description : String
  lastChange : String
  dn : String
deriving DecidableEq, Repr

/-- Python `s.split('.')[0]`. -/
def splitDotHead (s : String) : String :=
  String.mk (s.toList.takeWhile (fun c => c ≠ '.'))

/-- The fault dict appended by `process_faults`. -/
def mkFaultOut (a : Attrs) : FaultOut :=
  ⟨(aget "severity" a).getD "", (aget "code" a).getD "", (aget "descr" a).getD "",
   (aget "lastTransition" a).getD "", (aget "dn" a).getD ""⟩

/-- Function `process_faults` from `checklist_aci.py`. -/
def process_faults (parseTs : String → Option Int) (timeThreshold : Int) :
    List RawEntry → List FaultOut
  | [] => []
  | e :: rest =>
    if classKeyFalsy e.classKey then process_faults parseTs timeThreshold rest
    else
      let a := e.attributes
      let sev := pyLower ((aget "severity" a).getD "")
      if sev = "critical" ∨ sev = "major" then
        let lt := (aget "lastTransition" a).getD ""
        let skip :=
          if lt = "" then false
          else
            match parseTs (splitDotHead lt) with
            | some t => decide (t < timeThreshold)
            | none => false
        if skip then process_faults parseTs timeThreshold rest
        else mkFaultOut a :: process_faults parseTs timeThreshold rest
      else process_faults parseTs timeThreshold rest

/-- The inclusion condition as the specification phrases it: a real
(class-keyed) record whose severity is critical or major and whose
last-transition timestamp is missing, unparsable (fail-open), or not
older than the cutoff. -/
def faultIncluded (parseTs : String → Option Int) (timeThreshold : Int) (e : RawEntry) : Bool :=
  let sev := pyLower ((aget "severity" e.attributes).getD "")
  let lt := (aget "lastTransition" e.attributes).getD ""
  !classKeyFalsy e.classKey &&
    (sev == "critical" || sev == "major") &&
    (lt == "" ||
      match parseTs (splitDotHead lt) with
      | none => true
      | some t => decide (timeThreshold ≤ t))

/-! ### `ReportGenerator.generate_summary` -/

/-- The fields of a leaf/spine node dict that `generate_summary` reads
(`health`, `cpu`, `memory` of the dicts built by `process_leaf_spine`;
the float utilisations are modelled as rationals, over which the
source's order comparisons are exact). -/
structure LsNode where
  health : Int
  cpu : Rat
  memory : Rat
deriving DecidableEq, Repr

/-- The summary dict returned by `generate_summary`, flattened. -/
structure Summary where
  overallStatus : String
  apicStatus : String
  apicTotal : Nat
  apicProblems : Nat
  lsStatus : String
  lsTotal : Nat
  lsHealthProblems : Nat
  lsCpuProblems : Nat
  lsMemProblems : Nat
  fabricStatus : String
  fabricScore : Int
  faultsCritical : Nat
  faultsMajor : Nat
  fcsStatus : String
  fcsCount : Nat
  crcStatus : String
  crcCount : Nat
  dropStatus : String
  dropCount : Nat
  outputStatus : String
  outputCount : Nat
  thrHealth : Int
  thrCpuMem : Rat
  thrInterface : Int
deriving DecidableEq, Repr

/-- Flag `apic_health_ok`: `all(health >= thr for n in nodes) if nodes else False`
— an empty collection gives `False`, not a vacuous `True`. -/
def apicHealthOk (healthThr : Int) (apic : List NodeOut) : Bool :=
  if apic = [] then false else apic.all (fun n => decide (healthThr ≤ n.health))

/-- Flag `leaf_spine_health_ok`, same shape as `apic_health_ok`. -/
def lsHealthOk (healthThr : Int) (ls : List LsNode) : Bool :=
  if ls = [] then false else ls.all (fun n => decide (healthThr ≤ n.health))

/-- Flag `cpu_mem_ok`: strict `<` on both utilisations, `False` when empty. -/
def cpuMemOk (cpuMemThr : Rat) (ls : List LsNode) : Bool :=
  if ls = [] then false
  else ls.all (fun n => decide (n.cpu < cpuMemThr) && decide (n.memory < cpuMemThr))

/-- Count `critical_faults`. -/
def criticalCount (faults : List FaultOut) : Nat :=
  (faults.filter (fun f => pyLower f.severity == "critical")).length

/-- Count `major_faults`. -/
def majorCount (faults : List FaultOut) : Nat :=
  (faults.filter (fun f => pyLower f.severity == "major")).length

/-- Flag `overall_ok`: the conjunction of every category check. -/
def overallOk (healthThr : Int) (cpuMemThr : Rat) (apic : List NodeOut) (ls : List LsNode)
    (faults : List FaultOut) (fabricHealth : Int) (fcs crc drop output : List ErrEntry) : Bool :=
  apicHealthOk healthThr apic && lsHealthOk healthThr ls && cpuMemOk cpuMemThr ls &&
    decide (healthThr ≤ fabricHealth) &&
    criticalCount faults == 0 && majorCount faults == 0 &&
    crc.length == 0 && fcs.length == 0 && drop.length == 0 && output.length == 0

/-- Method `ReportGenerator.generate_summary` from `checklist_aci.py`, with
the three configured thresholds passed explicitly. -/
def generate_summary (healthThr : Int) (cpuMemThr : Rat) (intfThr : Int)
    (apic : List NodeOut) (ls : List LsNode) (faults : List FaultOut) (fabricHealth : Int)
    (fcs crc drop output : List ErrEntry) : Summary :=
  ⟨if overallOk healthThr cpuMemThr apic ls faults fabricHealth fcs crc drop output
    then "PASS" else "FAIL",
   if apicHealthOk healthThr apic then "PASS" else "FAIL",
   apic.length,
   (apic.filter (fun n => decide (n.health < healthThr))).length,
   if lsHealthOk healthThr ls then "PASS" else "FAIL",
   ls.length,
   (ls.filter (fun n => decide (n.health < healthThr))).length,
   (ls.filter (fun n => decide (cpuMemThr ≤ n.cpu))).length,
   (ls.filter (fun n => decide (cpuMemThr ≤ n.memory))).length,
   if decide (healthThr ≤ fabricHealth) then "PASS" else "FAIL",
   fabricHealth,
   criticalCount faults,
   majorCount faults,
   if fcs.length == 0 then "PASS" else "FAIL", fcs.length,
   if crc.length == 0 then "PASS" else "FAIL", crc.length,
   if drop.length == 0 then "PASS" else "FAIL", drop.length,
   if output.length == 0 then "PASS" else "FAIL", output.length,
   healthThr, cpuMemThr, intfThr⟩

/-! ## Shared lemmas -/

theorem plookup_dinsert {α β : Type} [DecidableEq α] (k k2 : α) (v : β) (l : List (α × β)) :
    plookup k (dinsert k2 v l) = if k2 = k then some v else plookup k l := by
  induction l with
  | nil => simp [dinsert, plookup]
  | cons p rest ih =>
    obtain ⟨k3, v3⟩ := p
    by_cases h32 : k3 = k2
    · subst h32
      by_cases h3k : k3 = k <;> simp [dinsert, plookup, h3k]
    · by_cases h3k : k3 = k
      · subst h3k
        have : ¬ k2 = k3 := fun h => h32 h.symm
        simp [dinsert, plookup, h32, this]
      · simp [dinsert, plookup, h32, h3k, ih]

theorem mem_dinsert {α β : Type} [DecidableEq α] (p : α × β) (k : α) (v : β) (l : List (α × β))
    (h : p ∈ dinsert k v l) : p = (k, v) ∨ p ∈ l := by
  induction l with
  | nil => simpa [dinsert] using h
  | cons q rest ih =>
    obtain ⟨k3, v3⟩ := q
    by_cases h3 : k3 = k
    · simp [dinsert, h3] at h
      rcases h with h | h
      · exact Or.inl (by simp [h])
      · exact Or.inr (by simp [h])
    · simp [dinsert, h3] at h
      rcases h with h | h
      · exact Or.inr (by simp [h])
      · rcases ih h with h2 | h2
        · exact Or.inl h2
        · exact Or.inr (by simp [h2])

@[simp] theorem akeys_nil {α β : Type} : akeys ([] : List (α × β)) = [] := rfl

@[simp] theorem akeys_cons {α β : Type} (k : α) (v : β) (l : List (α × β)) :
    akeys ((k, v) :: l) = k :: akeys l := rfl

theorem plookup_isSome_iff {α β : Type} [DecidableEq α] (k : α) (l : List (α × β)) :
    (plookup k l).isSome ↔ k ∈ akeys l := by
  induction l with
  | nil => simp [plookup]
  | cons q rest ih =>
    obtain ⟨k3, v3⟩ := q
    by_cases h3 : k3 = k
    · subst h3; simp [plookup]
    · rw [plookup, if_neg h3, akeys_cons, List.mem_cons]
      have hne : ¬ k = k3 := fun h => h3 h.symm
      simp [ih, hne]

theorem listLtb_iff : ∀ a b : List Char, listLtb a b = true ↔ a < b := by
  intro a
  induction a with
  | nil =>
    intro b
    cases b with
    | nil => exact iff_of_false (by simp [listLtb]) (fun h => by nomatch h)
    | cons d ds => exact iff_of_true rfl List.Lex.nil
  | cons c cs ih =>
    intro b
    cases b with
    | nil => exact iff_of_false (by simp [listLtb]) (fun h => by nomatch h)
    | cons d ds =>
      by_cases h1 : c < d
      · exact iff_of_true (by simp [listLtb, h1]) (List.Lex.rel h1)
      · by_cases h2 : d < c
        · refine iff_of_false (by simp [listLtb, h1, h2]) (fun h => ?_)
          cases h with
          | cons htl => exact absurd h2 (lt_irrefl _)
          | rel hr => exact h1 hr
        · have hcd : c = d := le_antisymm (not_lt.mp h2) (not_lt.mp h1)
          subst hcd
          rw [listLtb, if_neg h1, if_neg h2]
          constructor
          · intro h
            exact List.Lex.cons ((ih ds).mp h)
          · intro h
            cases h with
            | cons htl => exact (ih ds).mpr htl
            | rel hr => exact absurd hr h1

theorem listLtb_total : ∀ a b : List Char, listLtb a b = false → listLtb b a = false → a = b := by
  intro a
  induction a with
  | nil =>
    intro b hab hba
    cases b with
    | nil => rfl
    | cons d ds => simp [listLtb] at hab
  | cons c cs ih =>
    intro b hab hba
    cases b with
    | nil => simp [listLtb] at hba
    | cons d ds =>
      by_cases h1 : c < d
      · simp [listLtb, h1] at hab
      · by_cases h2 : d < c
        · simp [listLtb, h2] at hba
        · rw [listLtb, if_neg h1, if_neg h2] at hab
          rw [listLtb, if_neg h2, if_neg h1] at hba
          have hcd : c = d := le_antisymm (not_lt.mp h2) (not_lt.mp h1)
          rw [hcd, ih ds hab hba]

theorem strLtb_iff (a b : String) : strLtb a b = true ↔ a < b := by
  rw [String.lt_iff_toList_lt]
  exact listLtb_iff a.toList b.toList

theorem strLtb_total (a b : String) (hab : strLtb a b = false) (hba : strLtb b a = false) :
    a = b := by
  have h := listLtb_total a.toList b.toList hab hba
  cases a with
  | mk la =>
    cases b with
    | mk lb => exact congrArg String.mk h

theorem mem_sinsert (b x : String) (l : List String) (h : b ∈ sinsert x l) : b = x ∨ b ∈ l := by
  induction l with
  | nil => simpa [sinsert] using h
  | cons y ys ih =>
    by_cases hxy : x = y
    · rw [sinsert, if_pos hxy] at h
      exact Or.inr h
    · by_cases hlt : strLtb x y = true
      · rw [sinsert, if_neg hxy, if_pos hlt, List.mem_cons] at h
        rcases h with h | h
        · exact Or.inl h
        · exact Or.inr h
      · rw [sinsert, if_neg hxy, if_neg hlt, List.mem_cons] at h
        rcases h with h | h
        · exact Or.inr (List.mem_cons.mpr (Or.inl h))
        · rcases ih h with h2 | h2
          · exact Or.inl h2
          · exact Or.inr (List.mem_cons.mpr (Or.inr h2))

theorem sorted_sinsert (x : String) (l : List String) (h : l.Sorted (· < ·)) :
    (sinsert x l).Sorted (· < ·) := by
  induction l with
  | nil => simp [sinsert]
  | cons y ys ih =>
    rw [List.sorted_cons] at h
    obtain ⟨hy, hys⟩ := h
    by_cases hxy : x = y
    · rw [sinsert, if_pos hxy]
      exact List.sorted_cons.mpr ⟨hy, hys⟩
    · by_cases hlt : strLtb x y = true
      · rw [sinsert, if_neg hxy, if_pos hlt]
        refine List.sorted_cons.mpr ⟨?_, List.sorted_cons.mpr ⟨hy, hys⟩⟩
        intro b hb
        rw [List.mem_cons] at hb
        rcases hb with hb | hb
        · exact hb ▸ (strLtb_iff x y).mp hlt
        · exact lt_trans ((strLtb_iff x y).mp hlt) (hy b hb)
      · have hxyf : strLtb x y = false := by
          cases h2 : strLtb x y
          · rfl
          · exact absurd h2 hlt
        have hba : strLtb y x = true := by
          cases h2 : strLtb y x
          · exact absurd (strLtb_total x y hxyf h2) hxy
          · rfl
        have hyx : y < x := (strLtb_iff y x).mp hba
        rw [sinsert, if_neg hxy, if_neg hlt]
        refine List.sorted_cons.mpr ⟨?_, ih hys⟩
        intro b hb
        rcases mem_sinsert b x ys hb with h2 | h2
        · exact h2 ▸ hyx
        · exact hy b h2

theorem sorted_sortDedup (xs : List String) : (sortDedup xs).Sorted (· < ·) := by
  induction xs with
  | nil => simp [sortDedup]
  | cons x rest ih => exact sorted_sinsert x _ ih

theorem alookup_eq {β : Type} (k : String) (l : List (String × β)) :
    alookup k l = plookup k l := rfl

theorem exists_mem_cons {α : Type} {p : α → Prop} (a : α) (l : List α) :
    (∃ x ∈ a :: l, p x) ↔ p a ∨ ∃ x ∈ l, p x := by
  constructor
  · rintro ⟨x, hx, hpx⟩
    rw [List.mem_cons] at hx
    rcases hx with hx | hx
    · exact Or.inl (hx ▸ hpx)
    · exact Or.inr ⟨x, hx, hpx⟩
  · rintro (h | ⟨x, hx, hpx⟩)
    · exact ⟨a, List.mem_cons_self a l, h⟩
    · exact ⟨x, List.mem_cons.mpr (Or.inr hx), hpx⟩

theorem cdStep_lookup_isSome {K : Type} [DecidableEq K] (κ : String → K)
    (bm am : List (String × Int)) (acc : List (K × String)) (k : String) (p : K) :
    (plookup p (cdStep κ bm am acc k)).isSome ↔
      (κ k = p ∧ cdCond bm am k) ∨ (plookup p acc).isSome := by
  by_cases hc : cdCond bm am k
  · rw [cdStep, if_pos hc, plookup_dinsert]
    by_cases hkp : κ k = p
    · simp [hkp, hc]
    · simp [hkp]
  · rw [cdStep, if_neg hc]
    simp [hc]

theorem cdFold_lookup {K : Type} [DecidableEq K] (κ : String → K) (bm am : List (String × Int))
    (ks : List String) (acc : List (K × String)) (p : K) :
    (plookup p (ks.foldl (cdStep κ bm am) acc)).isSome ↔
      (∃ dn ∈ ks, κ dn = p ∧ cdCond bm am dn) ∨ (plookup p acc).isSome := by
  induction ks generalizing acc with
  | nil => simp
  | cons k ks ih =>
    rw [List.foldl_cons, ih, cdStep_lookup_isSome, exists_mem_cons]
    constructor
    · rintro (h | h | h)
      · exact Or.inl (Or.inr h)
      · exact Or.inl (Or.inl h)
      · exact Or.inr h
    · rintro ((h | h) | h)
      · exact Or.inr (Or.inl h)
      · exact Or.inl h
      · exact Or.inr (Or.inr h)

theorem cdFold_entry {K : Type} [DecidableEq K] (κ : String → K) (bm am : List (String × Int))
    (ks : List String) (acc : List (K × String))
    (hacc : ∀ p ∈ acc, ∃ dn, κ dn = p.1 ∧ cdCond bm am dn ∧ p.2 = cdFmt bm am dn) :
    ∀ p ∈ ks.foldl (cdStep κ bm am) acc,
      ∃ dn, κ dn = p.1 ∧ cdCond bm am dn ∧ p.2 = cdFmt bm am dn := by
  induction ks generalizing acc with
  | nil => simpa using hacc
  | cons k ks ih =>
    rw [List.foldl_cons]
    apply ih
    intro p hp
    rw [cdStep] at hp
    by_cases hc : cdCond bm am k
    · rw [if_pos hc] at hp
      rcases mem_dinsert p (κ k) (cdFmt bm am k) acc hp with h | h
      · exact ⟨k, by simp [h], hc, by simp [h]⟩
      · exact hacc p h
    · rw [if_neg hc] at hp
      exact hacc p hp

theorem counterDiff_entry {K : Type} [DecidableEq K] (κ : String → K)
    (ord : List String → List String) (bm am : List (String × Int)) :
    ∀ p ∈ counterDiff κ ord bm am,
      ∃ dn, κ dn = p.1 ∧ cdCond bm am dn ∧ p.2 = cdFmt bm am dn := by
  apply cdFold_entry
  intro p hp
  exact absurd hp (List.not_mem_nil p)

theorem mem_unionKeys {β γ : Type} (bm : List (String × β)) (am : List (String × γ))
    (dn : String) : dn ∈ unionKeys bm am ↔ dn ∈ akeys bm ∨ dn ∈ akeys am := by
  rw [unionKeys, List.mem_append, List.mem_filter]
  constructor
  · rintro (h | ⟨h, _⟩)
    · exact Or.inl h
    · exact Or.inr h
  · rintro (h | h)
    · exact Or.inl h
    · by_cases hb : dn ∈ akeys bm
      · exact Or.inl hb
      · exact Or.inr ⟨h, by simpa using hb⟩

theorem cdCond_mem_unionKeys (bm am : List (String × Int)) (dn : String)
    (h : cdCond bm am dn) : dn ∈ unionKeys bm am := by
  rw [mem_unionKeys]
  rw [cdCond, alookup_eq, alookup_eq] at h
  by_cases hb : (plookup dn bm).isSome
  · exact Or.inl ((plookup_isSome_iff dn bm).mp hb)
  · by_cases ha : (plookup dn am).isSome
    · exact Or.inr ((plookup_isSome_iff dn am).mp ha)
    · exfalso
      rw [Option.not_isSome_iff_eq_none] at hb ha
      rw [hb, ha] at h
      simp at h

theorem counterDiff_lookup_perm {K : Type} [DecidableEq K] (κ : String → K)
    (ord : List String → List String) (hord : ∀ l, (ord l).Perm l)
    (bm am : List (String × Int)) (p : K) :
    (plookup p (counterDiff κ ord bm am)).isSome ↔ ∃ dn, κ dn = p ∧ cdCond bm am dn := by
  rw [counterDiff, cdFold_lookup]
  constructor
  · rintro (⟨dn, _, hk, hc⟩ | h)
    · exact ⟨dn, hk, hc⟩
    · simp [plookup] at h
  · rintro ⟨dn, hk, hc⟩
    exact Or.inl ⟨dn, ((hord (unionKeys bm am)).mem_iff).mpr (cdCond_mem_unionKeys bm am dn hc),
      hk, hc⟩

theorem exbind_error {α β : Type} (f : α → Except Unit β) :
    ((Except.error () : Except Unit α) >>= f) = Except.error () := rfl

theorem exbind_ok_elim {α β : Type} {e : Except Unit α} {f : α → Except Unit β} {r : β}
    (h : (e >>= f) = .ok r) : ∃ x, e = .ok x ∧ f x = .ok r := by
  cases e with
  | ok x => exact ⟨x, rfl, h⟩
  | error u =>
    cases u
    rw [exbind_error] at h
    simp at h

theorem compareCore_ok_elim {ord : List String → List String} {b a : CoreDoc}
    {r : CompareResult} (h : compareCore ord b a = .ok r) :
    ∃ bf af beps aeps bi ai sc bie aie bc ac bd ad bo ao br ar,
      classDns "faultInst" b.faults = .ok bf ∧
      classDns "faultInst" a.faults = .ok af ∧
      endpointMap b.endpoints = .ok beps ∧
      endpointMap a.endpoints = .ok aeps ∧
      summarize_interfaces b.interfaces = .ok bi ∧
      summarize_interfaces a.interfaces = .ok ai ∧
      statusChangedGo bi ai (ord (interKeys bi ai)) = .ok sc ∧
      summarize_interface_errors b.interface_errors = .ok bie ∧
      summarize_interface_errors a.interface_errors = .ok aie ∧
      counterMap "rmonEtherStats" "cRCAlignErrors" b.crc_errors = .ok bc ∧
      counterMap "rmonEtherStats" "cRCAlignErrors" a.crc_errors = .ok ac ∧
      counterMap "rmonEgrCounters" "dropPkts" b.drop_errors = .ok bd ∧
      counterMap "rmonEgrCounters" "dropPkts" a.drop_errors = .ok ad ∧
      counterMap "rmonIfOut" "outErrors" b.output_errors = .ok bo ∧
      counterMap "rmonIfOut" "outErrors" a.output_errors = .ok ao ∧
      classDns "uribv4Route" b.urib_routes = .ok br ∧
      classDns "uribv4Route" a.urib_routes = .ok ar ∧
      r = ⟨b.fabric_health, a.fabric_health,
        sortDedup (af.filter (fun d => !bf.contains d)),
        sortDedup (bf.filter (fun d => !af.contains d)),
        sortDedup ((akeys aeps).filter (fun dn => !(akeys beps).contains dn)),
        sortDedup ((akeys beps).filter (fun dn => !(akeys aeps).contains dn)),
        sortDedup ((akeys beps).filter
          (fun dn => (akeys aeps).contains dn && decide (alookup dn beps ≠ alookup dn aeps))),
        sc,
        sortDedup ((akeys bi).filter (fun k => !(akeys ai).contains k)),
        sortDedup ((akeys ai).filter (fun k => !(akeys bi).contains k)),
        counterDiff (fun dn => dn) ord bie aie,
        counterDiff extract_interface_from_dn ord bc ac,
        counterDiff extract_interface_from_dn ord bd ad,
        counterDiff extract_interface_from_dn ord bo ao,
        sortDedup (br.filter (fun d => !ar.contains d)),
        sortDedup (ar.filter (fun d => !br.contains d))⟩ := by
  rw [compareCore] at h
  obtain ⟨bf, h1, h⟩ := exbind_ok_elim h
  obtain ⟨af, h2, h⟩ := exbind_ok_elim h
  obtain ⟨beps, h3, h⟩ := exbind_ok_elim h
  obtain ⟨aeps, h4, h⟩ := exbind_ok_elim h
  obtain ⟨bi, h5, h⟩ := exbind_ok_elim h
  obtain ⟨ai, h6, h⟩ := exbind_ok_elim h
  obtain ⟨sc, h7, h⟩ := exbind_ok_elim h
  obtain ⟨bie, h8, h⟩ := exbind_ok_elim h
  obtain ⟨aie, h9, h⟩ := exbind_ok_elim h
  obtain ⟨bc, h10, h⟩ := exbind_ok_elim h
  obtain ⟨ac, h11, h⟩ := exbind_ok_elim h
  obtain ⟨bd, h12, h⟩ := exbind_ok_elim h
  obtain ⟨ad, h13, h⟩ := exbind_ok_elim h
  obtain ⟨bo, h14, h⟩ := exbind_ok_elim h
  obtain ⟨ao, h15, h⟩ := exbind_ok_elim h
  obtain ⟨br, h16, h⟩ := exbind_ok_elim h
  obtain ⟨ar, h17, h⟩ := exbind_ok_elim h
  injection h with h
  exact ⟨bf, af, beps, aeps, bi, ai, sc, bie, aie, bc, ac, bd, ad, bo, ao, br, ar,
    h1, h2, h3, h4, h5, h6, h7, h8, h9, h10, h11, h12, h13, h14, h15, h16, h17, h.symm⟩

theorem pass_iff (c : Bool) : (if c then "PASS" else "FAIL") = "PASS" ↔ c = true := by
  cases c <;> simp

theorem apicHealthOk_iff (hT : Int) (apic : List NodeOut) :
    apicHealthOk hT apic = true ↔ apic ≠ [] ∧ ∀ n ∈ apic, hT ≤ n.health := by
  rw [apicHealthOk]
  by_cases hA : apic = [] <;> simp [hA, List.all_eq_true]

theorem lsHealthOk_iff (hT : Int) (ls : List LsNode) :
    lsHealthOk hT ls = true ↔ ls ≠ [] ∧ ∀ n ∈ ls, hT ≤ n.health := by
  rw [lsHealthOk]
  by_cases hL : ls = [] <;> simp [hL, List.all_eq_true]

theorem cpuMemOk_iff (cmT : Rat) (ls : List LsNode) :
    cpuMemOk cmT ls = true ↔ ls ≠ [] ∧ ∀ n ∈ ls, n.cpu < cmT ∧ n.memory < cmT := by
  rw [cpuMemOk]
  by_cases hL : ls = [] <;> simp [hL, List.all_eq_true]

theorem gs_apicStatus (hT : Int) (cmT : Rat) (iT : Int) (apic : List NodeOut) (ls : List LsNode)
    (faults : List FaultOut) (fh : Int) (fcs crc drop output : List ErrEntry) :
    (generate_summary hT cmT iT apic ls faults fh fcs crc drop output).apicStatus =
      if apicHealthOk hT apic then "PASS" else "FAIL" := rfl

theorem gs_lsStatus (hT : Int) (cmT : Rat) (iT : Int) (apic : List NodeOut) (ls : List LsNode)
    (faults : List FaultOut) (fh : Int) (fcs crc drop output : List ErrEntry) :
    (generate_summary hT cmT iT apic ls faults fh fcs crc drop output).lsStatus =
      if lsHealthOk hT ls then "PASS" else "FAIL" := rfl

theorem gs_overallStatus (hT : Int) (cmT : Rat) (iT : Int) (apic : List NodeOut) (ls : List LsNode)
    (faults : List FaultOut) (fh : Int) (fcs crc drop output : List ErrEntry) :
    (generate_summary hT cmT iT apic ls faults fh fcs crc drop output).overallStatus =
      if overallOk hT cmT apic ls faults fh fcs crc drop output then "PASS" else "FAIL" := rfl

theorem gs_faultsCritical (hT : Int) (cmT : Rat) (iT : Int) (apic : List NodeOut) (ls : List LsNode)
    (faults : List FaultOut) (fh : Int) (fcs crc drop output : List ErrEntry) :
    (generate_summary hT cmT iT apic ls faults fh fcs crc drop output).faultsCritical =
      criticalCount faults := rfl

theorem gs_faultsMajor (hT : Int) (cmT : Rat) (iT : Int) (apic : List NodeOut) (ls : List LsNode)
    (faults : List FaultOut) (fh : Int) (fcs crc drop output : List ErrEntry) :
    (generate_summary hT cmT iT apic ls faults fh fcs crc drop output).faultsMajor =
      majorCount faults := rfl

/-- C1 (amended): the health sub-status of a collection is PASS iff the
collection is nonempty and every entity meets the threshold — an empty
collection yields FAIL, not a vacuous PASS — and the overall status is
the conjunction of all category checks. -/
theorem C1_threshold_status (hT : Int) (cmT : Rat) (iT : Int)
    (apic : List NodeOut) (ls : List LsNode) (faults : List FaultOut) (fh : Int)
    (fcs crc drop output : List ErrEntry) (s : Summary)
    (hs : s = generate_summary hT cmT iT apic ls faults fh fcs crc drop output) :
    (s.apicStatus = "PASS" ↔ apic ≠ [] ∧ ∀ n ∈ apic, hT ≤ n.health) ∧
    (s.lsStatus = "PASS" ↔ ls ≠ [] ∧ ∀ n ∈ ls, hT ≤ n.health) ∧
    (s.overallStatus = "PASS" ↔
      s.apicStatus = "PASS" ∧ s.lsStatus = "PASS" ∧
      (ls ≠ [] ∧ ∀ n ∈ ls, n.cpu < cmT ∧ n.memory < cmT) ∧
      hT ≤ fh ∧ s.faultsCritical = 0 ∧ s.faultsMajor = 0 ∧
      crc = [] ∧ fcs = [] ∧ drop = [] ∧ output = []) := by
  subst hs
  refine ⟨?_, ?_, ?_⟩
  · rw [gs_apicStatus, pass_iff, apicHealthOk_iff]
  · rw [gs_lsStatus, pass_iff, lsHealthOk_iff]
  · rw [gs_overallStatus, gs_apicStatus, gs_lsStatus, gs_faultsCritical, gs_faultsMajor,
      pass_iff, pass_iff, pass_iff, overallOk]
    simp only [Bool.and_eq_true, beq_iff_eq, decide_eq_true_eq, List.length_eq_zero]
    constructor
    · rintro ⟨⟨⟨⟨⟨⟨⟨⟨⟨hA, hL⟩, hC⟩, hF⟩, hcr⟩, hmj⟩, hcrc⟩, hfcs⟩, hdrop⟩, hout⟩
      exact ⟨hA, hL, (cpuMemOk_iff cmT ls).mp hC, hF, hcr, hmj, hcrc, hfcs, hdrop, hout⟩
    · rintro ⟨hA, hL, hC, hF, hcr, hmj, hcrc, hfcs, hdrop, hout⟩
      exact ⟨⟨⟨⟨⟨⟨⟨⟨⟨hA, hL⟩, (cpuMemOk_iff cmT ls).mpr hC⟩, hF⟩, hcr⟩, hmj⟩, hcrc⟩,
        hfcs⟩, hdrop⟩, hout⟩

/-- C1 counterexample: an empty APIC collection (all of whose zero
entities vacuously meet the threshold) yields sub-status FAIL, not the
PASS the claim requires. -/
theorem C1_counterexample :
    (generate_summary 90 80 0 [] [⟨95, 10, 10⟩] [] 95 [] [] [] []).apicStatus = "FAIL" ∧
    (generate_summary 90 80 0 [] [⟨95, 10, 10⟩] [] 95 [] [] [] []).apicStatus ≠ "PASS" := by
  decide

/-- C1 witness: the amended theorem applied at a concrete input. -/
theorem C1_threshold_status_witness :
    (generate_summary 90 80 0 [] [] [] 95 [] [] [] []).apicStatus ≠ "PASS" :=
  fun h => (((C1_threshold_status 90 80 0 [] [] [] 95 [] [] [] []
    (generate_summary 90 80 0 [] [] [] 95 [] [] [] []) rfl).1).mp h).1 rfl

/-- C7 counterexample: in the `infraWiNode` branch an unrecognised
non-numeric health token reaches the unguarded `int(...)` and raises,
where the claim requires the token to map to 0 without failing. -/
theorem C7_counterexample :
    process_apic_data ⟨some [[("health", "borked")]], none⟩ = .error () ∧
    process_apic_data ⟨some [[("health", "borked")]], none⟩ ≠
      .ok [⟨"", "", none, "", "", "borked", 0⟩] := by
  exact ⟨rfl, fun h => Except.noConfusion h⟩

/-- C7 (amended): the `imdata` branch never raises and maps
`"fully-fit"` to 100, `"degraded"` to 50 and any unrecognised
non-numeric token to 0; the `infraWiNode` branch maps the known tokens
but raises on an unrecognised non-numeric token. -/
theorem C7_health_token_mapping :
    (∀ es : List RawEntry, process_apic_data ⟨none, some es⟩ = .ok (imdataNodeList es)) ∧
    (∀ a : Attrs, aget "health" a = some "fully-fit" → imdataNodeHealth a = 100) ∧
    (∀ a : Attrs, aget "health" a = some "degraded" → imdataNodeHealth a = 50) ∧
    (∀ (a : Attrs) (sv : String), aget "health" a = some sv → pyParseInt sv = none →
      pyLower sv ≠ "fully-fit" → pyLower sv ≠ "fully fit" → pyLower sv ≠ "degraded" →
      imdataNodeHealth a = 0) ∧
    (wiNodeHealth (some "fully-fit") = .ok 100) ∧
    (wiNodeHealth (some "degraded") = .ok 50) ∧
    (∀ sv : String, sv ≠ "" → pyParseInt sv = none →
      pyLower sv ≠ "fully-fit" → pyLower sv ≠ "100" → pyLower sv ≠ "degraded" →
      wiNodeHealth (some sv) = .error ()) := by
  refine ⟨fun es => rfl, ?_, ?_, ?_, rfl, rfl, ?_⟩
  · intro a h
    have hp : pyParseInt "fully-fit" = none := by decide
    have ht : pyLower "fully-fit" = "fully-fit" := by decide
    simp [imdataNodeHealth, h, hp, pyOr, ht]
  · intro a h
    have hp : pyParseInt "degraded" = none := by decide
    have ht : pyLower "degraded" = "degraded" := by decide
    simp [imdataNodeHealth, h, hp, pyOr, ht]
  · intro a sv h hp h1 h2 h3
    by_cases he : sv = ""
    · simp [imdataNodeHealth, h, he]
    · simp [imdataNodeHealth, h, he, hp, pyOr, h1, h2, h3]
  · intro sv he hp h1 h2 h3
    simp [wiNodeHealth, h1, h2, h3, he, hp, optToExcept]

/-- C7 witness: the amended theorem applied at a concrete input. -/
theorem C7_health_token_mapping_witness :
    imdataNodeHealth [("health", "borked")] = 0 :=
  C7_health_token_mapping.2.2.2.1 [("health", "borked")] "borked" rfl (by decide)
    (by decide) (by decide) (by decide)

/-- C8: a fault record is included iff its severity is critical or major
and its last-transition timestamp is missing, unparsable (fail-open), or
not older than the cutoff; stated as a filter/map normal form of the
loop. -/
theorem C8_fault_inclusion (parseTs : String → Option Int) (thr : Int) (es : List RawEntry) :
    process_faults parseTs thr es =
      (es.filter (faultIncluded parseTs thr)).map (fun e => mkFaultOut e.attributes) := by
  induction es with
  | nil => rfl
  | cons e rest ih =>
    rw [process_faults, List.filter_cons]
    by_cases hck : classKeyFalsy e.classKey
    · have hinc : faultIncluded parseTs thr e = false := by
        simp [faultIncluded, hck]
      simp [hck, hinc, ih]
    · simp only [hck, if_false, Bool.false_eq_true]
      by_cases hsev : pyLower ((aget "severity" e.attributes).getD "") = "critical" ∨
          pyLower ((aget "severity" e.attributes).getD "") = "major"
      · have hor : (pyLower ((aget "severity" e.attributes).getD "") == "critical" ||
            pyLower ((aget "severity" e.attributes).getD "") == "major") = true := by
          rcases hsev with h | h <;> simp [h]
        by_cases hlt : (aget "lastTransition" e.attributes).getD "" = ""
        · have hinc : faultIncluded parseTs thr e = true := by
            simp only [faultIncluded, hor, hlt]
            simp [hck]
          simp [hsev, hlt, hinc, ih]
        · cases hp : parseTs (splitDotHead ((aget "lastTransition" e.attributes).getD "")) with
          | none =>
            have hinc : faultIncluded parseTs thr e = true := by
              simp only [faultIncluded, hor, hp]
              simp [hck]
            simp [hsev, hlt, hp, hinc, ih]
          | some t =>
            by_cases hcmp : t < thr
            · have hdec : decide (thr ≤ t) = false := decide_eq_false (not_le.mpr hcmp)
              have hinc : faultIncluded parseTs thr e = false := by
                simp only [faultIncluded, hor, hp, hdec]
                simp [hlt]
              simp [hsev, hlt, hp, hcmp, hinc, ih]
            · have hdec : decide (thr ≤ t) = true := decide_eq_true (not_lt.mp hcmp)
              have hinc : faultIncluded parseTs thr e = true := by
                simp only [faultIncluded, hor, hp, hdec]
                simp [hck]
              simp [hsev, hlt, hp, hcmp, hinc, ih]
      · have hor : (pyLower ((aget "severity" e.attributes).getD "") == "critical" ||
            pyLower ((aget "severity" e.attributes).getD "") == "major") = false := by
          simp only [Bool.or_eq_false_iff, beq_eq_false_iff_ne]
          exact ⟨fun h => hsev (Or.inl h), fun h => hsev (Or.inr h)⟩
        have hinc : faultIncluded parseTs thr e = false := by
          simp [faultIncluded, hor]
        simp [hsev, hinc, ih]

/-- C9: a category key absent from a snapshot document is read as the
empty collection — for every list category and either side, deleting the
key is indistinguishable from storing `[]` — and a comparison of two
documents with every key absent still returns a complete (all-empty)
diff result rather than an error. -/
theorem C9_absent_category_empty :
    (∀ ord fh eps itf ie ce de oe ur (d2 : SnapDoc),
      compare_snapshots ord ⟨fh, none, eps, itf, ie, ce, de, oe, ur⟩ d2 =
        compare_snapshots ord ⟨fh, some [], eps, itf, ie, ce, de, oe, ur⟩ d2) ∧
    (∀ ord fh eps itf ie ce de oe ur (d1 : SnapDoc),
      compare_snapshots ord d1 ⟨fh, none, eps, itf, ie, ce, de, oe, ur⟩ =
        compare_snapshots ord d1 ⟨fh, some [], eps, itf, ie, ce, de, oe, ur⟩) ∧
    (∀ ord fh fl itf ie ce de oe ur (d2 : SnapDoc),
      compare_snapshots ord ⟨fh, fl, none, itf, ie, ce, de, oe, ur⟩ d2 =
        compare_snapshots ord ⟨fh, fl, some [], itf, ie, ce, de, oe, ur⟩ d2) ∧
    (∀ ord fh fl itf ie ce de oe ur (d1 : SnapDoc),
      compare_snapshots ord d1 ⟨fh, fl, none, itf, ie, ce, de, oe, ur⟩ =
        compare_snapshots ord d1 ⟨fh, fl, some [], itf, ie, ce, de, oe, ur⟩) ∧
    (∀ ord fh fl eps ie ce de oe ur (d2 : SnapDoc),
      compare_snapshots ord ⟨fh, fl, eps, none, ie, ce, de, oe, ur⟩ d2 =
        compare_snapshots ord ⟨fh, fl, eps, some [], ie, ce, de, oe, ur⟩ d2) ∧
    (∀ ord fh fl eps ie ce de oe ur (d1 : SnapDoc),
      compare_snapshots ord d1 ⟨fh, fl, eps, none, ie, ce, de, oe, ur⟩ =
        compare_snapshots ord d1 ⟨fh, fl, eps, some [], ie, ce, de, oe, ur⟩) ∧
    (∀ ord fh fl eps itf ce de oe ur (d2 : SnapDoc),
      compare_snapshots ord ⟨fh, fl, eps, itf, none, ce, de, oe, ur⟩ d2 =
        compare_snapshots ord ⟨fh, fl, eps, itf, some [], ce, de, oe, ur⟩ d2) ∧
    (∀ ord fh fl eps itf ce de oe ur (d1 : SnapDoc),
      compare_snapshots ord d1 ⟨fh, fl, eps, itf, none, ce, de, oe, ur⟩ =
        compare_snapshots ord d1 ⟨fh, fl, eps, itf, some [], ce, de, oe, ur⟩) ∧
    (∀ ord fh fl eps itf ie de oe ur (d2 : SnapDoc),
      compare_snapshots ord ⟨fh, fl, eps, itf, ie, none, de, oe, ur⟩ d2 =
        compare_snapshots ord ⟨fh, fl, eps, itf, ie, some [], de, oe, ur⟩ d2) ∧
    (∀ ord fh fl eps itf ie de oe ur (d1 : SnapDoc),
      compare_snapshots ord d1 ⟨fh, fl, eps, itf, ie, none, de, oe, ur⟩ =
        compare_snapshots ord d1 ⟨fh, fl, eps, itf, ie, some [], de, oe, ur⟩) ∧
    (∀ ord fh fl eps itf ie ce oe ur (d2 : SnapDoc),
      compare_snapshots ord ⟨fh, fl, eps, itf, ie, ce, none, oe, ur⟩ d2 =
        compare_snapshots ord ⟨fh, fl, eps, itf, ie, ce, some [], oe, ur⟩ d2) ∧
    (∀ ord fh fl eps itf ie ce oe ur (d1 : SnapDoc),
      compare_snapshots ord d1 ⟨fh, fl, eps, itf, ie, ce, none, oe, ur⟩ =
        compare_snapshots ord d1 ⟨fh, fl, eps, itf, ie, ce, some [], oe, ur⟩) ∧
    (∀ ord fh fl eps itf ie ce de ur (d2 : SnapDoc),
      compare_snapshots ord ⟨fh, fl, eps, itf, ie, ce, de, none, ur⟩ d2 =
        compare_snapshots ord ⟨fh, fl, eps, itf, ie, ce, de, some [], ur⟩ d2) ∧
    (∀ ord fh fl eps itf ie ce de ur (d1 : SnapDoc),
      compare_snapshots ord d1 ⟨fh, fl, eps, itf, ie, ce, de, none, ur⟩ =
        compare_snapshots ord d1 ⟨fh, fl, eps, itf, ie, ce, de, some [], ur⟩) ∧
    (∀ ord fh fl eps itf ie ce de oe (d2 : SnapDoc),
      compare_snapshots ord ⟨fh, fl, eps, itf, ie, ce, de, oe, none⟩ d2 =
        compare_snapshots ord ⟨fh, fl, eps, itf, ie, ce, de, oe, some []⟩ d2) ∧
    (∀ ord fh fl eps itf ie ce de oe (d1 : SnapDoc),
      compare_snapshots ord d1 ⟨fh, fl, eps, itf, ie, ce, de, oe, none⟩ =
        compare_snapshots ord d1 ⟨fh, fl, eps, itf, ie, ce, de, oe, some []⟩) ∧
    compare_snapshots (fun l => l) ⟨none, none, none, none, none, none, none, none, none⟩
        ⟨none, none, none, none, none, none, none, none, none⟩ =
      .ok ⟨none, none, [], [], [], [], [], [], [], [], [], [], [], [], [], []⟩ := by
  refine ⟨?_, ?_, ?_, ?_, ?_, ?_, ?_, ?_, ?_, ?_, ?_, ?_, ?_, ?_, ?_, ?_, rfl⟩ <;>
    intro _ _ _ _ _ _ _ _ _ _ <;> rfl

theorem compare_fields {ord : List String → List String} {d1 d2 : SnapDoc} {r : CompareResult}
    {bie aie bc ac bd ad bo ao : List (String × Int)}
    (h : compare_snapshots ord d1 d2 = .ok r)
    (h1 : summarize_interface_errors (normDoc d1).interface_errors = .ok bie)
    (h2 : summarize_interface_errors (normDoc d2).interface_errors = .ok aie)
    (h3 : counterMap "rmonEtherStats" "cRCAlignErrors" (normDoc d1).crc_errors = .ok bc)
    (h4 : counterMap "rmonEtherStats" "cRCAlignErrors" (normDoc d2).crc_errors = .ok ac)
    (h5 : counterMap "rmonEgrCounters" "dropPkts" (normDoc d1).drop_errors = .ok bd)
    (h6 : counterMap "rmonEgrCounters" "dropPkts" (normDoc d2).drop_errors = .ok ad)
    (h7 : counterMap "rmonIfOut" "outErrors" (normDoc d1).output_errors = .ok bo)
    (h8 : counterMap "rmonIfOut" "outErrors" (normDoc d2).output_errors = .ok ao) :
    r.interface_error_changes = counterDiff (fun dn => dn) ord bie aie ∧
    r.crc_error_changes = counterDiff extract_interface_from_dn ord bc ac ∧
    r.drop_error_changes = counterDiff extract_interface_from_dn ord bd ad ∧
    r.output_error_changes = counterDiff extract_interface_from_dn ord bo ao := by
  rw [compare_snapshots] at h
  obtain ⟨bf, af, beps, aeps, bi, ai, sc, bie2, aie2, bc2, ac2, bd2, ad2, bo2, ao2, br, ar,
    _, _, _, _, _, _, _, e8, e9, e10, e11, e12, e13, e14, e15, _, _, hr⟩ :=
    compareCore_ok_elim h
  rw [h1] at e8
  rw [h2] at e9
  rw [h3] at e10
  rw [h4] at e11
  rw [h5] at e12
  rw [h6] at e13
  rw [h7] at e14
  rw [h8] at e15
  injection e8 with e8
  injection e9 with e9
  injection e10 with e10
  injection e11 with e11
  injection e12 with e12
  injection e13 with e13
  injection e14 with e14
  injection e15 with e15
  subst e8 e9 e10 e11 e12 e13 e14 e15
  rw [hr]
  exact ⟨rfl, rfl, rfl, rfl⟩

/-- C3 (amended): in every monotonic-counter diff category the reported
value is exactly `"{b} ➜ {a}"` — before count, space, arrow, space,
after count — for the looked-up counts with `a > b`; the claim's
spaceless `"{before}➜{after}"` is refuted by the counterexample. -/
theorem C3_counter_value_format (ord : List String → List String) (d1 d2 : SnapDoc)
    (r : CompareResult) (bie aie bc ac bd ad bo ao : List (String × Int))
    (h : compare_snapshots ord d1 d2 = .ok r)
    (h1 : summarize_interface_errors (normDoc d1).interface_errors = .ok bie)
    (h2 : summarize_interface_errors (normDoc d2).interface_errors = .ok aie)
    (h3 : counterMap "rmonEtherStats" "cRCAlignErrors" (normDoc d1).crc_errors = .ok bc)
    (h4 : counterMap "rmonEtherStats" "cRCAlignErrors" (normDoc d2).crc_errors = .ok ac)
    (h5 : counterMap "rmonEgrCounters" "dropPkts" (normDoc d1).drop_errors = .ok bd)
    (h6 : counterMap "rmonEgrCounters" "dropPkts" (normDoc d2).drop_errors = .ok ad)
    (h7 : counterMap "rmonIfOut" "outErrors" (normDoc d1).output_errors = .ok bo)
    (h8 : counterMap "rmonIfOut" "outErrors" (normDoc d2).output_errors = .ok ao) :
    (∀ p ∈ r.interface_error_changes,
      (alookup p.1 bie).getD 0 < (alookup p.1 aie).getD 0 ∧
      p.2 = toString ((alookup p.1 bie).getD 0) ++ " ➜ " ++
        toString ((alookup p.1 aie).getD 0)) ∧
    (∀ p ∈ r.crc_error_changes, ∃ dn, p.1 = extract_interface_from_dn dn ∧
      (alookup dn bc).getD 0 < (alookup dn ac).getD 0 ∧
      p.2 = toString ((alookup dn bc).getD 0) ++ " ➜ " ++ toString ((alookup dn ac).getD 0)) ∧
    (∀ p ∈ r.drop_error_changes, ∃ dn, p.1 = extract_interface_from_dn dn ∧
      (alookup dn bd).getD 0 < (alookup dn ad).getD 0 ∧
      p.2 = toString ((alookup dn bd).getD 0) ++ " ➜ " ++ toString ((alookup dn ad).getD 0)) ∧
    (∀ p ∈ r.output_error_changes, ∃ dn, p.1 = extract_interface_from_dn dn ∧
      (alookup dn bo).getD 0 < (alookup dn ao).getD 0 ∧
      p.2 = toString ((alookup dn bo).getD 0) ++ " ➜ " ++ toString ((alookup dn ao).getD 0)) := by
  obtain ⟨f1, f2, f3, f4⟩ := compare_fields h h1 h2 h3 h4 h5 h6 h7 h8
  refine ⟨?_, ?_, ?_, ?_⟩
  · rw [f1]
    intro p hp
    obtain ⟨dn, hk, hc, hv⟩ := counterDiff_entry (fun dn => dn) ord bie aie p hp
    have hk2 : dn = p.1 := hk
    subst hk2
    exact ⟨hc, hv⟩
  · rw [f2]
    intro p hp
    obtain ⟨dn, hk, hc, hv⟩ := counterDiff_entry extract_interface_from_dn ord bc ac p hp
    exact ⟨dn, hk.symm, hc, hv⟩
  · rw [f3]
    intro p hp
    obtain ⟨dn, hk, hc, hv⟩ := counterDiff_entry extract_interface_from_dn ord bd ad p hp
    exact ⟨dn, hk.symm, hc, hv⟩
  · rw [f4]
    intro p hp
    obtain ⟨dn, hk, hc, hv⟩ := counterDiff_entry extract_interface_from_dn ord bo ao p hp
    exact ⟨dn, hk.symm, hc, hv⟩

/-- C3 counterexample: the CRC diff entry for a count going 5 to 12 has
value `"5 ➜ 12"` (spaces around the arrow), not the claimed `"5➜12"`. -/
theorem C3_counterexample :
    compare_snapshots (fun l => l)
        ⟨none, none, none, none, none,
          some [JR.obj [("rmonEtherStats", JB.obj [("attributes",
            JA.obj [("dn", "topology/pod-1/node-102/sys/phys-[eth1/5]/dbgEtherStats"),
                    ("cRCAlignErrors", "5")])])]], none, none, none⟩
        ⟨none, none, none, none, none,
          some [JR.obj [("rmonEtherStats", JB.obj [("attributes",
            JA.obj [("dn", "topology/pod-1/node-102/sys/phys-[eth1/5]/dbgEtherStats"),
                    ("cRCAlignErrors", "12")])])]], none, none, none⟩ =
      .ok ⟨none, none, [], [], [], [], [], [], [], [], [],
        [((some "node-102", some "eth1/5"), "5 ➜ 12")], [], [], [], []⟩ ∧
    ("5 ➜ 12" : String) ≠ "5➜12" :=
  ⟨rfl, by decide⟩

/-- C3 witness: the amended theorem applied at a concrete comparison. -/
theorem C3_counter_value_format_witness :
    ("0 ➜ 5" : String) =
      toString ((alookup "topology/pod-1/node-102/sys/phys-[eth1/5]/dbgEtherStats"
          ([] : List (String × Int))).getD 0) ++ " ➜ " ++
        toString ((alookup "topology/pod-1/node-102/sys/phys-[eth1/5]/dbgEtherStats"
          [("topology/pod-1/node-102/sys/phys-[eth1/5]/dbgEtherStats", (5 : Int))]).getD 0) :=
  ((C3_counter_value_format (fun l => l)
      ⟨none, none, none, none, none, none, none, none, none⟩
      ⟨none, none, none, none,
        some [JR.obj [("dn", JB.s "topology/pod-1/node-102/sys/phys-[eth1/5]/dbgEtherStats"),
          ("crc", JB.s "5")]], none, none, none, none⟩
      ⟨none, none, [], [], [], [], [], [], [], [],
        [("topology/pod-1/node-102/sys/phys-[eth1/5]/dbgEtherStats", "0 ➜ 5")],
        [], [], [], [], []⟩
      [] [("topology/pod-1/node-102/sys/phys-[eth1/5]/dbgEtherStats", (5 : Int))]
      [] [] [] [] [] []
      rfl rfl rfl rfl rfl rfl rfl rfl rfl).1
    ("topology/pod-1/node-102/sys/phys-[eth1/5]/dbgEtherStats", "0 ➜ 5") (by decide)).2

/-- C2 counterexample: an `interface_error_changes` entry is keyed by
the raw DN string itself, not by the `(node-102, eth1/5)` pair the DN
extractor derives from it, contradicting the claim for that category. -/
theorem C2_counterexample :
    compare_snapshots (fun l => l)
        ⟨none, none, none, none, some [], none, none, none, none⟩
        ⟨none, none, none, none,
          some [JR.obj [("dn", JB.s "topology/pod-1/node-102/sys/phys-[eth1/5]/dbgEtherStats"),
            ("crc", JB.s "5")]], none, none, none, none⟩ =
      .ok ⟨none, none, [], [], [], [], [], [], [], [],
        [("topology/pod-1/node-102/sys/phys-[eth1/5]/dbgEtherStats", "0 ➜ 5")],
        [], [], [], [], []⟩ ∧
    extract_interface_from_dn "topology/pod-1/node-102/sys/phys-[eth1/5]/dbgEtherStats" =
      (some "node-102", some "eth1/5") ∧
    ("topology/pod-1/node-102/sys/phys-[eth1/5]/dbgEtherStats" : String) ≠ "node-102" ∧
    ("topology/pod-1/node-102/sys/phys-[eth1/5]/dbgEtherStats" : String) ≠ "eth1/5" :=
  ⟨rfl, rfl, by decide, by decide⟩

/-- C2 (amended): the crc / drop / output diff categories key their
entries by the pair returned by `extract_interface_from_dn` (which is
`(none, none)` when the pattern is absent), while `interface_error_changes`
keys its entries by the raw DN itself — every key of that category is a
DN whose summarized count strictly increased. -/
theorem C2_counter_report_keys (ord : List String → List String) (d1 d2 : SnapDoc)
    (r : CompareResult) (bie aie bc ac bd ad bo ao : List (String × Int))
    (h : compare_snapshots ord d1 d2 = .ok r)
    (h1 : summarize_interface_errors (normDoc d1).interface_errors = .ok bie)
    (h2 : summarize_interface_errors (normDoc d2).interface_errors = .ok aie)
    (h3 : counterMap "rmonEtherStats" "cRCAlignErrors" (normDoc d1).crc_errors = .ok bc)
    (h4 : counterMap "rmonEtherStats" "cRCAlignErrors" (normDoc d2).crc_errors = .ok ac)
    (h5 : counterMap "rmonEgrCounters" "dropPkts" (normDoc d1).drop_errors = .ok bd)
    (h6 : counterMap "rmonEgrCounters" "dropPkts" (normDoc d2).drop_errors = .ok ad)
    (h7 : counterMap "rmonIfOut" "outErrors" (normDoc d1).output_errors = .ok bo)
    (h8 : counterMap "rmonIfOut" "outErrors" (normDoc d2).output_errors = .ok ao) :
    (∀ p ∈ r.interface_error_changes,
      (alookup p.1 bie).getD 0 < (alookup p.1 aie).getD 0) ∧
    (∀ p ∈ r.crc_error_changes, ∃ dn, p.1 = extract_interface_from_dn dn ∧
      (alookup dn bc).getD 0 < (alookup dn ac).getD 0) ∧
    (∀ p ∈ r.drop_error_changes, ∃ dn, p.1 = extract_interface_from_dn dn ∧
      (alookup dn bd).getD 0 < (alookup dn ad).getD 0) ∧
    (∀ p ∈ r.output_error_changes, ∃ dn, p.1 = extract_interface_from_dn dn ∧
      (alookup dn bo).getD 0 < (alookup dn ao).getD 0) := by
  obtain ⟨f1, f2, f3, f4⟩ := compare_fields h h1 h2 h3 h4 h5 h6 h7 h8
  refine ⟨?_, ?_, ?_, ?_⟩
  · rw [f1]
    intro p hp
    obtain ⟨dn, hk, hc, _⟩ := counterDiff_entry (fun dn => dn) ord bie aie p hp
    have hk2 : dn = p.1 := hk
    subst hk2
    exact hc
  · rw [f2]
    intro p hp
    obtain ⟨dn, hk, hc, _⟩ := counterDiff_entry extract_interface_from_dn ord bc ac p hp
    exact ⟨dn, hk.symm, hc⟩
  · rw [f3]
    intro p hp
    obtain ⟨dn, hk, hc, _⟩ := counterDiff_entry extract_interface_from_dn ord bd ad p hp
    exact ⟨dn, hk.symm, hc⟩
  · rw [f4]
    intro p hp
    obtain ⟨dn, hk, hc, _⟩ := counterDiff_entry extract_interface_from_dn ord bo ao p hp
    exact ⟨dn, hk.symm, hc⟩

/-- C2 witness: the amended theorem applied at a concrete comparison. -/
theorem C2_counter_report_keys_witness :
    (alookup "topology/pod-1/node-102/sys/phys-[eth1/5]/dbgEtherStats"
        ([] : List (String × Int))).getD 0 <
      (alookup "topology/pod-1/node-102/sys/phys-[eth1/5]/dbgEtherStats"
        [("topology/pod-1/node-102/sys/phys-[eth1/5]/dbgEtherStats", (5 : Int))]).getD 0 :=
  (C2_counter_report_keys (fun l => l)
      ⟨none, none, none, none, some [], none, none, none, none⟩
      ⟨none, none, none, none,
        some [JR.obj [("dn", JB.s "topology/pod-1/node-102/sys/phys-[eth1/5]/dbgEtherStats"),
          ("crc", JB.s "5")]], none, none, none, none⟩
      ⟨none, none, [], [], [], [], [], [], [], [],
        [("topology/pod-1/node-102/sys/phys-[eth1/5]/dbgEtherStats", "0 ➜ 5")],
        [], [], [], [], []⟩
      [] [("topology/pod-1/node-102/sys/phys-[eth1/5]/dbgEtherStats", (5 : Int))]
      [] [] [] [] [] []
      rfl rfl rfl rfl rfl rfl rfl rfl rfl).1
    ("topology/pod-1/node-102/sys/phys-[eth1/5]/dbgEtherStats", "0 ➜ 5") (by decide)

/-- C6: in every monotonic-counter diff category an entry is present for
a key exactly when the after count strictly exceeds the before count
(counts default to 0 on the absent side); for the three extractor-keyed
categories the key is present iff some DN with a strict increase
extracts to it.  `ord` ranges over the possible set-iteration orders
(any permutation of the enumerated key set). -/
theorem C6_counter_emit_iff (ord : List String → List String)
    (hord : ∀ l, (ord l).Perm l) (d1 d2 : SnapDoc)
    (r : CompareResult) (bie aie bc ac bd ad bo ao : List (String × Int))
    (h : compare_snapshots ord d1 d2 = .ok r)
    (h1 : summarize_interface_errors (normDoc d1).interface_errors = .ok bie)
    (h2 : summarize_interface_errors (normDoc d2).interface_errors = .ok aie)
    (h3 : counterMap "rmonEtherStats" "cRCAlignErrors" (normDoc d1).crc_errors = .ok bc)
    (h4 : counterMap "rmonEtherStats" "cRCAlignErrors" (normDoc d2).crc_errors = .ok ac)
    (h5 : counterMap "rmonEgrCounters" "dropPkts" (normDoc d1).drop_errors = .ok bd)
    (h6 : counterMap "rmonEgrCounters" "dropPkts" (normDoc d2).drop_errors = .ok ad)
    (h7 : counterMap "rmonIfOut" "outErrors" (normDoc d1).output_errors = .ok bo)
    (h8 : counterMap "rmonIfOut" "outErrors" (normDoc d2).output_errors = .ok ao) :
    (∀ dn : String, (alookup dn r.interface_error_changes).isSome ↔
      (alookup dn bie).getD 0 < (alookup dn aie).getD 0) ∧
    (∀ p : Option String × Option String, (plookup p r.crc_error_changes).isSome ↔
      ∃ dn, extract_interface_from_dn dn = p ∧
        (alookup dn bc).getD 0 < (alookup dn ac).getD 0) ∧
    (∀ p : Option String × Option String, (plookup p r.drop_error_changes).isSome ↔
      ∃ dn, extract_interface_from_dn dn = p ∧
        (alookup dn bd).getD 0 < (alookup dn ad).getD 0) ∧
    (∀ p : Option String × Option String, (plookup p r.output_error_changes).isSome ↔
      ∃ dn, extract_interface_from_dn dn = p ∧
        (alookup dn bo).getD 0 < (alookup dn ao).getD 0) := by
  obtain ⟨f1, f2, f3, f4⟩ := compare_fields h h1 h2 h3 h4 h5 h6 h7 h8
  refine ⟨?_, ?_, ?_, ?_⟩
  · rw [f1]
    intro dn
    rw [counterDiff_lookup_perm (fun dn => dn) ord hord bie aie dn]
    constructor
    · rintro ⟨dn2, hk, hc⟩
      have hk2 : dn2 = dn := hk
      exact hk2 ▸ hc
    · intro hc
      exact ⟨dn, rfl, hc⟩
  · rw [f2]
    intro p
    exact counterDiff_lookup_perm extract_interface_from_dn ord hord bc ac p
  · rw [f3]
    intro p
    exact counterDiff_lookup_perm extract_interface_from_dn ord hord bd ad p
  · rw [f4]
    intro p
    exact counterDiff_lookup_perm extract_interface_from_dn ord hord bo ao p

/-- C6 witness: the theorem applied at a concrete comparison. -/
theorem C6_counter_emit_iff_witness :
    (alookup "topology/pod-1/node-102/sys/phys-[eth1/5]/dbgEtherStats"
      [("topology/pod-1/node-102/sys/phys-[eth1/5]/dbgEtherStats", "0 ➜ 5")]).isSome :=
  ((C6_counter_emit_iff (fun l => l) (fun l => List.Perm.refl l)
      ⟨none, none, none, none, some [], none, none, none, none⟩
      ⟨none, none, none, none,
        some [JR.obj [("dn", JB.s "topology/pod-1/node-102/sys/phys-[eth1/5]/dbgEtherStats"),
          ("crc", JB.s "5")]], none, none, none, none⟩
      ⟨none, none, [], [], [], [], [], [], [], [],
        [("topology/pod-1/node-102/sys/phys-[eth1/5]/dbgEtherStats", "0 ➜ 5")],
        [], [], [], [], []⟩
      [] [("topology/pod-1/node-102/sys/phys-[eth1/5]/dbgEtherStats", (5 : Int))]
      [] [] [] [] [] []
      rfl rfl rfl rfl rfl rfl rfl rfl rfl).1
    "topology/pod-1/node-102/sys/phys-[eth1/5]/dbgEtherStats").mpr (by decide)

/-- C4 counterexample: under the set-iteration order that enumerates the
key intersection in reverse, `status_changed` comes out unsorted (and
differs from the order produced by the identity enumeration), refuting
both the claimed sortedness and the claimed independence from
enumeration; reversal is a legitimate iteration order (a permutation of
the set). -/
theorem C4_counterexample :
    compare_snapshots (fun l => l.reverse)
        ⟨none, none, none,
          some [JR.obj [("l1PhysIf", JB.obj [("attributes",
                  JA.obj [("dn", "a"), ("operSt", "up")])])],
                JR.obj [("l1PhysIf", JB.obj [("attributes",
                  JA.obj [("dn", "b"), ("operSt", "up")])])]],
          none, none, none, none, none⟩
        ⟨none, none, none,
          some [JR.obj [("l1PhysIf", JB.obj [("attributes",
                  JA.obj [("dn", "a"), ("operSt", "down")])])],
                JR.obj [("l1PhysIf", JB.obj [("attributes",
                  JA.obj [("dn", "b"), ("operSt", "down")])])]],
          none, none, none, none, none⟩ =
      .ok ⟨none, none, [], [], [], [], [],
        ["b: up ➜ down", "a: up ➜ down"], [], [], [], [], [], [], [], []⟩ ∧
    ¬ List.Sorted (· < ·) ["b: up ➜ down", "a: up ➜ down"] ∧
    (List.reverse ["a", "b"]).Perm ["a", "b"] ∧
    (["b: up ➜ down", "a: up ➜ down"] : List String) ≠ ["a: up ➜ down", "b: up ➜ down"] := by
  refine ⟨rfl, ?_, by decide, by decide⟩
  intro hs
  rw [List.sorted_cons] at hs
  have h1 := hs.1 "a: up ➜ down" (by simp)
  have h2 : strLtb "b: up ➜ down" "a: up ➜ down" = true := (strLtb_iff _ _).mpr h1
  exact absurd h2 (by decide)

/-- C4 (amended): every set-difference output of `compare_snapshots`
(new/cleared faults, new/missing/moved endpoints, missing/new
interfaces, missing/new routes) is sorted ascending; `status_changed`
and the four counter-diff maps instead follow the unspecified set
iteration order (see the counterexample). -/
theorem C4_sorted_outputs (ord : List String → List String) (d1 d2 : SnapDoc)
    (r : CompareResult) (h : compare_snapshots ord d1 d2 = .ok r) :
    List.Sorted (· < ·) r.new_faults ∧ List.Sorted (· < ·) r.cleared_faults ∧
    List.Sorted (· < ·) r.new_endpoints ∧ List.Sorted (· < ·) r.missing_endpoints ∧
    List.Sorted (· < ·) r.moved_endpoints ∧ List.Sorted (· < ·) r.interfaces_missing ∧
    List.Sorted (· < ·) r.interfaces_new ∧ List.Sorted (· < ·) r.urib_missing ∧
    List.Sorted (· < ·) r.urib_new := by
  rw [compare_snapshots] at h
  obtain ⟨bf, af, beps, aeps, bi, ai, sc, bie, aie, bc, ac, bd, ad, bo, ao, br, ar,
    _, _, _, _, _, _, _, _, _, _, _, _, _, _, _, _, _, hr⟩ := compareCore_ok_elim h
  subst hr
  exact ⟨sorted_sortDedup _, sorted_sortDedup _, sorted_sortDedup _, sorted_sortDedup _,
    sorted_sortDedup _, sorted_sortDedup _, sorted_sortDedup _, sorted_sortDedup _,
    sorted_sortDedup _⟩

/-- C4 witness: the amended theorem applied at a concrete comparison
with two new faults arriving out of order. -/
theorem C4_sorted_outputs_witness :
    List.Sorted (· < ·) (["fault-a", "fault-b"] : List String) :=
  (C4_sorted_outputs (fun l => l)
      ⟨none, some [], none, none, none, none, none, none, none⟩
      ⟨none, some [JR.obj [("faultInst", JB.obj [("attributes", JA.obj [("dn", "fault-b")])])],
                   JR.obj [("faultInst", JB.obj [("attributes", JA.obj [("dn", "fault-a")])])]],
        none, none, none, none, none, none, none⟩
      ⟨none, none, ["fault-a", "fault-b"], [], [], [], [], [], [], [], [], [], [], [], [], []⟩
      rfl).1

/-- C5 counterexample: when the pattern does not match, the comparer's
DN extractor returns `(None, None)` — not the `"Unknown"` sentinels the
claim ascribes to it — and it also fails to match `aggr-` bracketed
ports even though the claim covers both the phys and aggr markers. -/
theorem C5_counterexample :
    extract_interface_from_dn "no-markers-here" = (none, none) ∧
    ((none, none) : Option String × Option String) ≠ (some "Unknown", some "Unknown") ∧
    extract_interface_from_dn "topology/pod-1/node-102/sys/aggr-[po1]/x" = (none, none) :=
  ⟨rfl, by decide, rfl⟩

/-- C5 (amended): both extractors are total functions; on the example DN
they extract `node-102` and `eth1/5`; the health-check extractor uses
the per-field `"Unknown"` sentinels and handles `phys-`/`aggr-`, while
the comparer's extractor couples the two fields (both are `none` exactly
together) and matches only `phys-`. -/
theorem C5_dn_extractor :
    extract_interface_from_dn "topology/pod-1/node-102/sys/phys-[eth1/5]/dbgEtherStats" =
      (some "node-102", some "eth1/5") ∧
    checkNodeId "topology/pod-1/node-102/sys/phys-[eth1/5]/dbgEtherStats" = "node-102" ∧
    checkInterfaceName "topology/pod-1/node-102/sys/phys-[eth1/5]/dbgEtherStats" = "eth1/5" ∧
    checkNodeId "no-markers-here" = "Unknown" ∧
    checkInterfaceName "no-markers-here" = "Unknown" ∧
    checkNodeId "topology/pod-1/node-102/sys/aggr-[po1]/x" = "node-102" ∧
    checkInterfaceName "topology/pod-1/node-102/sys/aggr-[po1]/x" = "po1" ∧
    (∀ dn : String, (extract_interface_from_dn dn).1 = none ↔
      (extract_interface_from_dn dn).2 = none) := by
  refine ⟨rfl, rfl, rfl, rfl, rfl, rfl, rfl, ?_⟩
  intro dn
  rw [extract_interface_from_dn]
  cases h : nodePhysScan dn.toList with
  | none => simp
  | some p =>
    obtain ⟨ds, port⟩ := p
    simp

/-- C10: `compare_snapshots` raises on a faults, endpoints or routes
record lacking its class key or nested `attributes`/`dn` (first three
conjuncts), while malformed records in the interfaces and the four
error-counter categories are skipped and the comparison still succeeds
(last conjunct). -/
theorem C10_malformed_record_partiality :
    compare_snapshots (fun l => l)
        ⟨none, some [JR.obj []], none, none, none, none, none, none, none⟩
        ⟨none, none, none, none, none, none, none, none, none⟩ = .error () ∧
    compare_snapshots (fun l => l)
        ⟨none, none, some [JR.obj [("fvCEp", JB.obj [])]], none, none, none, none, none, none⟩
        ⟨none, none, none, none, none, none, none, none, none⟩ = .error () ∧
    compare_snapshots (fun l => l)
        ⟨none, none, none, none, none, none, none, none,
          some [JR.obj [("uribv4Route", JB.obj [("attributes", JA.obj [])])]]⟩
        ⟨none, none, none, none, none, none, none, none, none⟩ = .error () ∧
    compare_snapshots (fun l => l)
        ⟨none, none, none,
          some [JR.obj []],
          some [JR.obj []],
          some [JR.obj [("rmonEtherStats", JB.obj [])]],
          some [JR.obj [("rmonEgrCounters", JB.obj [])]],
          some [JR.obj [("rmonIfOut", JB.obj [("attributes", JA.obj [])])]],
          none⟩
        ⟨none, none, none, none, none, none, none, none, none⟩ =
      .ok ⟨none, none, [], [], [], [], [], [], [], [], [], [], [], [], [], []⟩ :=
  ⟨rfl, rfl, rfl, rfl⟩
